import Mathlib

/-
Verification of the llm-tracker library (llmstats repository).

The development shallowly embeds the TypeScript sources:
  - src/index.ts      : withLLMTracking, defaultTokenExtractor, defaultModelExtractor,
                        sendTrackingData (also duplicated in src/sender.ts)
  - src/factory.ts    : createLLMTracker / createTrackingWrapper / wrappedWithMetadata
  - src/extractors/openai.ts  : openAITokenExtractor, openAIModelExtractor
  - src/extractors/ai-sdk.ts  : aiSDKTokenExtractor, aiSDKModelExtractor

JavaScript runtime values are modelled by the inductive type JSVal (numbers are
modelled as integers plus a NaN marker; floating point is not needed by any of
the properties considered).  Effects are made explicit: console diagnostics are
collected in lists of strings, the fetch transport is an environment parameter
(FetchOutcome), and an invocation of the wrapped function is a pure function
from the target outcome and the environment to a WrapOutcome recording the
returned value, the delivery requests issued, and the diagnostics emitted.
-/

/-- A JavaScript runtime value (restricted to the shapes the library touches). -/
inductive JSVal where
  | vundefined : JSVal
  | vnull : JSVal
  | vnan : JSVal
  | vnum (n : Int) : JSVal
  | vstr (s : String) : JSVal
  | vbool (b : Bool) : JSVal
  | vobj (fields : List (String × JSVal)) : JSVal

/-- Property access `v?.k` / `v.k`: on an object, the first binding of the key
(JS objects have unique keys); on any non-object, `undefined` (optional
chaining on null/undefined, and ordinary access on primitives, both yield
`undefined` for the fields used here). -/
def getField (v : JSVal) (k : String) : JSVal :=
  match v with
  | .vobj fs => ((fs.find? (fun p => p.1 == k)).map Prod.snd).getD .vundefined
  | _ => .vundefined

/-- The JS strict test `x !== undefined`, as used by the token extractors. -/
def isUndefined : JSVal → Bool
  | .vundefined => true
  | _ => false

/-- JS ToString on the modelled values. -/
def jsToString : JSVal → String
  | .vundefined => "undefined"
  | .vnull => "null"
  | .vnan => "NaN"
  | .vnum n => toString n
  | .vstr s => s
  | .vbool b => if b then "true" else "false"
  | .vobj _ => "[object Object]"

/-- JS ToNumber on the modelled values; `none` stands for NaN. -/
def toNumber : JSVal → Option Int
  | .vundefined => none
  | .vnull => some 0
  | .vnan => none
  | .vnum n => some n
  | .vstr s => if s = "" then some 0 else s.toInt?
  | .vbool b => some (if b then 1 else 0)
  | .vobj _ => none

/-- JS ToPrimitive: plain objects convert via ToString. -/
def toPrimitive : JSVal → JSVal
  | .vobj _ => .vstr "[object Object]"
  | v => v

/-- The JS binary `+` operator on the modelled values: string concatenation
when either primitive operand is a string, numeric addition otherwise (NaN
propagating). -/
def jsAdd (a b : JSVal) : JSVal :=
  match toPrimitive a, toPrimitive b with
  | .vstr s, y => .vstr (s ++ jsToString y)
  | x, .vstr s => .vstr (jsToString x ++ s)
  | x, y =>
    match toNumber x, toNumber y with
    | some m, some n => .vnum (m + n)
    | _, _ => .vnan

/-- JS property assignment on an object literal under construction: replace the
first (unique) binding of the key in place, or append the key at the end.  This
is the per-key step of the object spread `...` operator. -/
def setKey : List (String × JSVal) → String → JSVal → List (String × JSVal)
  | [], k, v => [(k, v)]
  | (k2, v2) :: t, k, v =>
    if k2 = k then (k2, v) :: t else (k2, v2) :: setKey t k v

/-- The JS object spread `\x7b...a, ...b\x7d`: assign every binding of `b`, in
order, on top of `a`. -/
def spread (a b : List (String × JSVal)) : List (String × JSVal) :=
  b.foldl (fun acc p => setKey acc p.1 p.2) a

/-- First binding of a key in an object, as an option. -/
def lookupKey (o : List (String × JSVal)) (k : String) : Option JSVal :=
  (o.find? (fun p => p.1 == k)).map Prod.snd

/-- Whether an object carries a binding for a key. -/
def hasKey (o : List (String × JSVal)) (k : String) : Bool :=
  o.any (fun p => p.1 == k)

/-- Result of a token extraction strategy: the two token fields together with
the console diagnostics the strategy emitted. -/
structure TokenExtraction where
  inputTokens : JSVal
  outputTokens : JSVal
  warnings : List String

/-- Result of a model extraction strategy. -/
structure ModelExtraction where
  modelName : JSVal
  warnings : List String

/-- Diagnostic emitted by defaultTokenExtractor on an unrecognized shape. -/
def defaultTokenWarn : String :=
  "LLM Tracker: Could not automatically extract token usage."

/-- Diagnostic emitted by openAITokenExtractor on an unrecognized shape. -/
def openAITokenWarn : String :=
  "LLM Tracker (OpenAI Extractor): Could not extract token usage."

/-- Diagnostic emitted by aiSDKTokenExtractor on an unrecognized shape. -/
def aiSDKTokenWarn : String :=
  "LLM Tracker (AI SDK Extractor): Could not extract token usage."

/-- Diagnostic always emitted by aiSDKModelExtractor. -/
def aiSDKModelWarn : String :=
  "LLM Tracker (AI SDK Extractor): Model name cannot be reliably extracted from the response object."

/-- The guard of defaultTokenExtractor (src/index.ts):
`response?.usage?.prompt_tokens !== undefined && response?.usage?.completion_tokens !== undefined`. -/
def defaultTokenRecognized (response : JSVal) : Bool :=
  !(isUndefined (getField (getField response "usage") "prompt_tokens")) &&
  !(isUndefined (getField (getField response "usage") "completion_tokens"))

/-- defaultTokenExtractor from src/index.ts: copy `usage.prompt_tokens` and
`usage.completion_tokens` when both are defined, otherwise warn and return
zero counts. -/
def defaultTokenExtractor (response : JSVal) : TokenExtraction :=
  if defaultTokenRecognized response then
    { inputTokens := getField (getField response "usage") "prompt_tokens"
      outputTokens := getField (getField response "usage") "completion_tokens"
      warnings := [] }
  else
    { inputTokens := .vnum 0, outputTokens := .vnum 0, warnings := [defaultTokenWarn] }

/-- defaultModelExtractor from src/index.ts: `response?.model`. -/
def defaultModelExtractor (response : JSVal) : ModelExtraction :=
  { modelName := getField response "model", warnings := [] }

/-- The guard of openAITokenExtractor (src/extractors/openai.ts); same keys as
the default extractor. -/
def openAITokenRecognized (response : JSVal) : Bool :=
  !(isUndefined (getField (getField response "usage") "prompt_tokens")) &&
  !(isUndefined (getField (getField response "usage") "completion_tokens"))

/-- openAITokenExtractor from src/extractors/openai.ts. -/
def openAITokenExtractor (response : JSVal) : TokenExtraction :=
  if openAITokenRecognized response then
    { inputTokens := getField (getField response "usage") "prompt_tokens"
      outputTokens := getField (getField response "usage") "completion_tokens"
      warnings := [] }
  else
    { inputTokens := .vnum 0, outputTokens := .vnum 0, warnings := [openAITokenWarn] }

/-- openAIModelExtractor from src/extractors/openai.ts: `response?.model`. -/
def openAIModelExtractor (response : JSVal) : ModelExtraction :=
  { modelName := getField response "model", warnings := [] }

/-- The guard of aiSDKTokenExtractor (src/extractors/ai-sdk.ts):
`response?.usage?.promptTokens !== undefined && response?.usage?.completionTokens !== undefined`. -/
def aiSDKTokenRecognized (response : JSVal) : Bool :=
  !(isUndefined (getField (getField response "usage") "promptTokens")) &&
  !(isUndefined (getField (getField response "usage") "completionTokens"))

/-- aiSDKTokenExtractor from src/extractors/ai-sdk.ts. -/
def aiSDKTokenExtractor (response : JSVal) : TokenExtraction :=
  if aiSDKTokenRecognized response then
    { inputTokens := getField (getField response "usage") "promptTokens"
      outputTokens := getField (getField response "usage") "completionTokens"
      warnings := [] }
  else
    { inputTokens := .vnum 0, outputTokens := .vnum 0, warnings := [aiSDKTokenWarn] }

/-- aiSDKModelExtractor from src/extractors/ai-sdk.ts: always warns and
returns `undefined`. -/
def aiSDKModelExtractor (_response : JSVal) : ModelExtraction :=
  { modelName := .vundefined, warnings := [aiSDKModelWarn] }

/-- The TrackingData record assembled by the wrapper (src/types.ts and
src/index.ts).  `modelName` is `vundefined` when absent; `metadata` is always set
by the wrapper on the success path. -/
structure TrackingData where
  functionName : String
  inputTokens : JSVal
  outputTokens : JSVal
  totalTokens : JSVal
  modelName : JSVal
  timestamp : String
  metadata : List (String × JSVal)

/-- LLMTrackerOptions (src/types.ts and src/index.ts).  Optional fields are
options; the extractor callbacks may themselves emit diagnostics, hence their
Lean types return the extraction structures above. -/
structure LLMTrackerOptions where
  functionName : String
  trackerApiUrl : String
  apiKey : Option String
  metadata : Option (List (String × JSVal))
  tokenExtractor : Option (JSVal → TokenExtraction)
  modelExtractor : Option (JSVal → ModelExtraction)

/-- Environment for one `fetch` call: either the network operation itself
fails with an error value, or a response arrives with its `ok` flag, status,
status text and body text. -/
inductive FetchOutcome where
  | networkError (e : JSVal) : FetchOutcome
  | response (ok : Bool) (status : Nat) (statusText : String) (body : String) : FetchOutcome

/-- The HTTP request issued by sendTrackingData: method POST to the given URL,
with the given headers, the body being the JSON serialization of the record. -/
structure FetchRequest where
  url : String
  method : String
  headers : List (String × String)
  body : TrackingData

/-- Result of one sendTrackingData call: the request it issued, whether the
returned promise resolved or rejected (with which error value), and the
console diagnostics it printed. -/
structure SendResult where
  request : FetchRequest
  outcome : Except JSVal Unit
  diagnostics : List String

/-- Diagnostic printed by sendTrackingData on a non-success status. -/
def apiFailDiag (status : Nat) (apiUrl body : String) : String :=
  "LLM Tracker: API request failed with status " ++ toString status ++
  ". URL: " ++ apiUrl ++ ", Body: " ++ body

/-- Diagnostic printed by the catch block of sendTrackingData. -/
def netFailDiag (apiUrl : String) : String :=
  "LLM Tracker: Network or fetch error sending tracking data to " ++ apiUrl ++ "."

/-- sendTrackingData (src/sender.ts, duplicated inside src/index.ts): build the
headers (Content-Type, plus a Bearer Authorization header when apiKey is
truthy), POST the serialized record, throw on a non-success status after
logging it, and have the surrounding catch block log and rethrow any error. -/
def sendTrackingData (apiUrl : String) (data : TrackingData) (apiKey : Option String)
    (fetchEnv : FetchOutcome) : SendResult :=
  let headers : List (String × String) :=
    match apiKey with
    | some k =>
      if k = "" then [("Content-Type", "application/json")]
      else [("Content-Type", "application/json"), ("Authorization", "Bearer " ++ k)]
    | none => [("Content-Type", "application/json")]
  let request : FetchRequest := { url := apiUrl, method := "POST", headers := headers, body := data }
  match fetchEnv with
  | .networkError e =>
    { request := request, outcome := .error e, diagnostics := [netFailDiag apiUrl] }
  | .response ok status statusText body =>
    if ok then
      { request := request, outcome := .ok (), diagnostics := [] }
    else
      { request := request
        outcome := .error (.vstr ("API request failed: " ++ toString status ++ " " ++ statusText))
        diagnostics := [apiFailDiag status apiUrl body, netFailDiag apiUrl] }

/-- Observable outcome of one invocation of a wrapped function: the value or
error handed back to the caller, the delivery requests issued to the transport
(one per sendTrackingData call), and all console diagnostics. -/
structure WrapOutcome where
  result : Except JSVal JSVal
  requests : List FetchRequest
  diagnostics : List String

/-- Diagnostic printed by the wrapper's catch on the fire-and-forget delivery. -/
def sendFailDiag : String := "LLM Tracker: Failed to send tracking data."

/-- Diagnostic printed by the wrapper when the target fails. -/
def targetFailDiag (functionName : String) : String :=
  "LLM Tracker: Error occurred in tracked function " ++ functionName ++ "."

/-- One invocation of the function returned by withLLMTracking (src/index.ts),
given the awaited outcome of the target, the measured duration, the captured
timestamp, and the fetch environment.  On target failure: log and rethrow the
original error, with no delivery.  On success: run the (custom or default)
extractors, recompute totalTokens, assemble the record whose metadata is the
spread of options.metadata with durationMs assigned last, fire the delivery
exactly once, swallow any delivery failure into a console diagnostic, and
return the original result. -/
def runWrapped (options : LLMTrackerOptions) (targetOutcome : Except JSVal JSVal)
    (durationMs : Int) (timestamp : String) (fetchEnv : FetchOutcome) : WrapOutcome :=
  match targetOutcome with
  | .error e =>
    { result := .error e
      requests := []
      diagnostics := [targetFailDiag options.functionName] }
  | .ok result =>
    let extractor := options.tokenExtractor.getD defaultTokenExtractor
    let te := extractor result
    let totalTokens := jsAdd te.inputTokens te.outputTokens
    let modelExtractor := options.modelExtractor.getD defaultModelExtractor
    let me := modelExtractor result
    let trackingData : TrackingData :=
      { functionName := options.functionName
        inputTokens := te.inputTokens
        outputTokens := te.outputTokens
        totalTokens := totalTokens
        modelName := me.modelName
        timestamp := timestamp
        metadata := spread (options.metadata.getD []) [("durationMs", .vnum durationMs)] }
    let send := sendTrackingData options.trackerApiUrl trackingData options.apiKey fetchEnv
    let catchDiag : List String :=
      match send.outcome with
      | .error _ => [sendFailDiag]
      | .ok _ => []
    { result := .ok result
      requests := [send.request]
      diagnostics := te.warnings ++ me.warnings ++ send.diagnostics ++ catchDiag }

/-- The wrapped function applied to its arguments: await the target on the
arguments, then proceed as runWrapped.  The argument type is abstract, matching
the generic TArgs of withLLMTracking. -/
def runTracked {α : Type} (options : LLMTrackerOptions)
    (target : α → Except JSVal JSVal) (args : α)
    (durationMs : Int) (timestamp : String) (fetchEnv : FetchOutcome) : WrapOutcome :=
  runWrapped options (target args) durationMs timestamp fetchEnv

/-- Base options accepted by createLLMTracker (src/factory.ts):
`Omit<LLMTrackerOptions, "functionName">`. -/
structure BaseOptions where
  trackerApiUrl : String
  apiKey : Option String
  metadata : Option (List (String × JSVal))
  tokenExtractor : Option (JSVal → TokenExtraction)
  modelExtractor : Option (JSVal → ModelExtraction)

/-- Specific options accepted by createTrackingWrapper (src/factory.ts):
`Partial<LLMTrackerOptions> + functionName`. -/
structure SpecificOptions where
  functionName : String
  trackerApiUrl : Option String
  apiKey : Option String
  metadata : Option (List (String × JSVal))
  tokenExtractor : Option (JSVal → TokenExtraction)
  modelExtractor : Option (JSVal → ModelExtraction)

/-- The option resolution performed inside wrappedWithMetadata (src/factory.ts):
mergedMetadata is the three-way object spread of base, specific and runtime
metadata (each treated as the empty object when absent), and the options handed
to withLLMTracking are the spread of baseOptions under specificOptions with the
metadata field set to mergedMetadata. -/
def resolveOptions (base : BaseOptions) (spec : SpecificOptions)
    (runtimeMetadata : Option (List (String × JSVal))) : LLMTrackerOptions :=
  let mergedMetadata :=
    spread (spread (base.metadata.getD []) (spec.metadata.getD [])) (runtimeMetadata.getD [])
  { functionName := spec.functionName
    trackerApiUrl := spec.trackerApiUrl.getD base.trackerApiUrl
    apiKey := spec.apiKey <|> base.apiKey
    metadata := some mergedMetadata
    tokenExtractor := spec.tokenExtractor <|> base.tokenExtractor
    modelExtractor := spec.modelExtractor <|> base.modelExtractor }

/-- One invocation of the factory-produced wrapper wrappedWithMetadata
(src/factory.ts): resolve the options with the runtime metadata of this call,
then run the tracked call on the single argument object.  The target receives
only `args`; the runtime metadata is not forwarded to it. -/
def runFactoryWrapped (base : BaseOptions) (spec : SpecificOptions)
    (target : JSVal → Except JSVal JSVal) (args : JSVal)
    (runtimeMetadata : Option (List (String × JSVal)))
    (durationMs : Int) (timestamp : String) (fetchEnv : FetchOutcome) : WrapOutcome :=
  runTracked (resolveOptions base spec runtimeMetadata) target args durationMs timestamp fetchEnv

/-- A record with its metadata field cleared, to state which parts of a
delivery are independent of the metadata configuration. -/
def recordSansMetadata (r : TrackingData) : TrackingData :=
  { r with metadata := [] }

/-- A request with its record's metadata field cleared. -/
def reqSansMetadata (q : FetchRequest) : FetchRequest :=
  { q with body := recordSansMetadata q.body }

/-- Options with only the required fields set, used for concrete evaluations. -/
def defOpts : LLMTrackerOptions :=
  { functionName := "f"
    trackerApiUrl := "https://tracker.example/track"
    apiKey := none
    metadata := none
    tokenExtractor := none
    modelExtractor := none }

/-- A fetch environment in which the delivery succeeds. -/
def fetchOk : FetchOutcome := .response true 200 "OK" ""

/-- A value passes the strict undefined test exactly when it is `vundefined`. -/
theorem isUndefined_eq_true_iff (v : JSVal) : isUndefined v = true ↔ v = .vundefined := by
  cases v <;> simp [isUndefined]

/-- Response used by the concrete default-strategy scenario. -/
def c9Response : JSVal :=
  .vobj [("usage", .vobj [("prompt_tokens", .vnum 10), ("completion_tokens", .vnum 5)]),
         ("model", .vstr "m1")]

/-- Claim C2: for every target function, configuration and argument list on
which the target resolves to a value r, the wrapped function resolves to
exactly that value r, unmodified. -/
theorem wrapper_returns_original_result (opts : LLMTrackerOptions) {α : Type}
    (target : α → Except JSVal JSVal) (args : α) (d : Int) (t : String)
    (env : FetchOutcome) (r : JSVal) (h : target args = .ok r) :
    (runTracked opts target args d t env).result = .ok r := by
  simp [runTracked, h, runWrapped]

/-- Witness for C2 at a concrete target, argument and environment. -/
theorem wrapper_returns_original_result_witness :
    ((fun _ : JSVal => (Except.ok (JSVal.vnum 1) : Except JSVal JSVal)) JSVal.vnull
        = Except.ok (JSVal.vnum 1))
    ∧ (runTracked defOpts (fun _ : JSVal => (Except.ok (JSVal.vnum 1) : Except JSVal JSVal))
        JSVal.vnull 0 "ts" fetchOk).result = .ok (.vnum 1) :=
  ⟨rfl, wrapper_returns_original_result defOpts _ JSVal.vnull 0 "ts" fetchOk (.vnum 1) rfl⟩

/-- Claim C3: for every target function, configuration and argument list on
which the target rejects with error e, the wrapped function rethrows e itself
and the delivery channel is invoked zero times. -/
theorem wrapper_rethrows_target_error (opts : LLMTrackerOptions) {α : Type}
    (target : α → Except JSVal JSVal) (args : α) (d : Int) (t : String)
    (env : FetchOutcome) (e : JSVal) (h : target args = .error e) :
    (runTracked opts target args d t env).result = .error e
    ∧ (runTracked opts target args d t env).requests = [] := by
  simp [runTracked, h, runWrapped]

/-- Witness for C3 at a concrete failing target. -/
theorem wrapper_rethrows_target_error_witness :
    ((fun _ : JSVal => (Except.error (JSVal.vstr "boom") : Except JSVal JSVal)) JSVal.vnull
        = Except.error (JSVal.vstr "boom"))
    ∧ ((runTracked defOpts
          (fun _ : JSVal => (Except.error (JSVal.vstr "boom") : Except JSVal JSVal))
          JSVal.vnull 0 "ts" fetchOk).result = .error (.vstr "boom")
        ∧ (runTracked defOpts
          (fun _ : JSVal => (Except.error (JSVal.vstr "boom") : Except JSVal JSVal))
          JSVal.vnull 0 "ts" fetchOk).requests = []) :=
  ⟨rfl, wrapper_rethrows_target_error defOpts _ JSVal.vnull 0 "ts" fetchOk (.vstr "boom") rfl⟩

/-- Claim C4: on a successful wrapped call, the value returned to the caller is
the target result whatever the delivery environment does, the delivery outcome
never changes it, exactly one delivery attempt is made (no retry), and a
delivery rejection (non-success status or network error) only adds the catch
diagnostic. -/
theorem delivery_failure_isolated (opts : LLMTrackerOptions) (r : JSVal) (d : Int)
    (t : String) (env env2 : FetchOutcome) :
    (runWrapped opts (.ok r) d t env).result = .ok r
    ∧ (runWrapped opts (.ok r) d t env).result = (runWrapped opts (.ok r) d t env2).result
    ∧ (runWrapped opts (.ok r) d t env).requests.length = 1
    ∧ (∀ e, sendFailDiag ∈ (runWrapped opts (.ok r) d t (.networkError e)).diagnostics)
    ∧ (∀ st stx b, sendFailDiag ∈
        (runWrapped opts (.ok r) d t (.response false st stx b)).diagnostics) := by
  refine ⟨by simp [runWrapped], by simp [runWrapped], by simp [runWrapped], ?_, ?_⟩
  · intro e
    simp [runWrapped, sendTrackingData]
  · intro st stx b
    simp [runWrapped, sendTrackingData]

/-- Claim C9: the concrete response with usage 10/5 and model m1, processed
with the default strategies, yields the record 10/5/15 with modelName m1. -/
theorem default_strategy_concrete_record :
    ((runWrapped defOpts (.ok c9Response) 7 "2024-01-01T00:00:00.000Z" fetchOk).requests.map
        FetchRequest.body)
      = [{ functionName := "f"
           inputTokens := .vnum 10
           outputTokens := .vnum 5
           totalTokens := .vnum 15
           modelName := .vstr "m1"
           timestamp := "2024-01-01T00:00:00.000Z"
           metadata := [("durationMs", .vnum 7)] }] := by
  rfl

/-- The request issued by sendTrackingData always carries the given record as
its body, whatever the fetch environment does. -/
theorem sendTrackingData_request_body (apiUrl : String) (data : TrackingData)
    (apiKey : Option String) (env : FetchOutcome) :
    (sendTrackingData apiUrl data apiKey env).request.body = data := by
  cases env with
  | networkError e => rfl
  | response ok status statusText body => cases ok <;> rfl

/-- On a successful target outcome, the single delivered record is the
assembled TrackingData. -/
theorem runWrapped_requests_body (opts : LLMTrackerOptions) (r : JSVal) (d : Int)
    (t : String) (env : FetchOutcome) :
    (runWrapped opts (.ok r) d t env).requests.map FetchRequest.body
      = [{ functionName := opts.functionName
           inputTokens := ((opts.tokenExtractor.getD defaultTokenExtractor) r).inputTokens
           outputTokens := ((opts.tokenExtractor.getD defaultTokenExtractor) r).outputTokens
           totalTokens := jsAdd ((opts.tokenExtractor.getD defaultTokenExtractor) r).inputTokens
             ((opts.tokenExtractor.getD defaultTokenExtractor) r).outputTokens
           modelName := ((opts.modelExtractor.getD defaultModelExtractor) r).modelName
           timestamp := t
           metadata := spread (opts.metadata.getD []) [("durationMs", .vnum d)] }] := by
  simp only [runWrapped, List.map_cons, List.map_nil]
  rw [sendTrackingData_request_body]

/-- The record produced in the concrete default-strategy scenario. -/
def c9Rec : TrackingData :=
  { functionName := "f"
    inputTokens := .vnum 10
    outputTokens := .vnum 5
    totalTokens := .vnum 15
    modelName := .vstr "m1"
    timestamp := "2024-01-01T00:00:00.000Z"
    metadata := [("durationMs", .vnum 7)] }

/-- In the concrete scenario the single delivered record is c9Rec. -/
theorem c9_requests_eq :
    (runWrapped defOpts (.ok c9Response) 7 "2024-01-01T00:00:00.000Z"
        fetchOk).requests.map FetchRequest.body = [c9Rec] := rfl

/-- Claim C5: every record the wrapper delivers has totalTokens recomputed as
the JS sum of its inputTokens and outputTokens fields, for every extractor
(custom or default) and every target outcome; on numeric token values this is
integer addition. -/
theorem totalTokens_recomputed (opts : LLMTrackerOptions)
    (outcome : Except JSVal JSVal) (d : Int) (t : String) (env : FetchOutcome)
    (rec : TrackingData)
    (h : rec ∈ (runWrapped opts outcome d t env).requests.map FetchRequest.body) :
    rec.totalTokens = jsAdd rec.inputTokens rec.outputTokens
    ∧ ∀ i o : Int, rec.inputTokens = .vnum i → rec.outputTokens = .vnum o →
        rec.totalTokens = .vnum (i + o) := by
  cases outcome with
  | error e => simp [runWrapped] at h
  | ok r =>
    rw [runWrapped_requests_body, List.mem_singleton] at h
    subst h
    refine ⟨rfl, ?_⟩
    intro i o hi ho
    simp only at hi ho
    simp only [hi, ho]
    show jsAdd (.vnum i) (.vnum o) = JSVal.vnum (i + o)
    rfl

/-- Witness for C5: the concrete default-strategy scenario record. -/
theorem totalTokens_recomputed_witness :
    c9Rec ∈ (runWrapped defOpts (.ok c9Response) 7 "2024-01-01T00:00:00.000Z"
        fetchOk).requests.map FetchRequest.body
    ∧ c9Rec.totalTokens = jsAdd c9Rec.inputTokens c9Rec.outputTokens := by
  have hmem : c9Rec ∈ (runWrapped defOpts (.ok c9Response) 7 "2024-01-01T00:00:00.000Z"
      fetchOk).requests.map FetchRequest.body := by
    rw [c9_requests_eq]
    exact List.mem_singleton_self _
  exact ⟨hmem, (totalTokens_recomputed defOpts (.ok c9Response) 7
    "2024-01-01T00:00:00.000Z" fetchOk c9Rec hmem).1⟩

/-- Claim C7: every built-in strategy is total; on an unrecognized shape each
token extractor returns zero counts and emits a diagnostic, and each model
extractor returns undefined (the AI SDK one unconditionally, with a
diagnostic). -/
theorem extractors_total_on_unrecognized (v : JSVal) :
    (defaultTokenRecognized v = false →
        defaultTokenExtractor v = ⟨.vnum 0, .vnum 0, [defaultTokenWarn]⟩)
    ∧ (openAITokenRecognized v = false →
        openAITokenExtractor v = ⟨.vnum 0, .vnum 0, [openAITokenWarn]⟩)
    ∧ (aiSDKTokenRecognized v = false →
        aiSDKTokenExtractor v = ⟨.vnum 0, .vnum 0, [aiSDKTokenWarn]⟩)
    ∧ (isUndefined (getField v "model") = true → defaultModelExtractor v = ⟨.vundefined, []⟩)
    ∧ (isUndefined (getField v "model") = true → openAIModelExtractor v = ⟨.vundefined, []⟩)
    ∧ aiSDKModelExtractor v = ⟨.vundefined, [aiSDKModelWarn]⟩ := by
  refine ⟨?_, ?_, ?_, ?_, ?_, rfl⟩
  · intro h; simp [defaultTokenExtractor, h]
  · intro h; simp [openAITokenExtractor, h]
  · intro h; simp [aiSDKTokenExtractor, h]
  · intro h
    rw [isUndefined_eq_true_iff] at h
    simp [defaultModelExtractor, h]
  · intro h
    rw [isUndefined_eq_true_iff] at h
    simp [openAIModelExtractor, h]

/-- Witness for C7 at the unrecognized value null. -/
theorem extractors_total_on_unrecognized_witness :
    (defaultTokenRecognized JSVal.vnull = false
      ∧ defaultTokenExtractor JSVal.vnull = ⟨.vnum 0, .vnum 0, [defaultTokenWarn]⟩)
    ∧ (openAITokenRecognized JSVal.vnull = false
      ∧ openAITokenExtractor JSVal.vnull = ⟨.vnum 0, .vnum 0, [openAITokenWarn]⟩)
    ∧ (aiSDKTokenRecognized JSVal.vnull = false
      ∧ aiSDKTokenExtractor JSVal.vnull = ⟨.vnum 0, .vnum 0, [aiSDKTokenWarn]⟩)
    ∧ (isUndefined (getField JSVal.vnull "model") = true
      ∧ defaultModelExtractor JSVal.vnull = ⟨.vundefined, []⟩)
    ∧ (isUndefined (getField JSVal.vnull "model") = true
      ∧ openAIModelExtractor JSVal.vnull = ⟨.vundefined, []⟩)
    ∧ aiSDKModelExtractor JSVal.vnull = ⟨.vundefined, [aiSDKModelWarn]⟩ :=
  ⟨⟨rfl, (extractors_total_on_unrecognized JSVal.vnull).1 rfl⟩,
   ⟨rfl, (extractors_total_on_unrecognized JSVal.vnull).2.1 rfl⟩,
   ⟨rfl, (extractors_total_on_unrecognized JSVal.vnull).2.2.1 rfl⟩,
   ⟨rfl, (extractors_total_on_unrecognized JSVal.vnull).2.2.2.1 rfl⟩,
   ⟨rfl, (extractors_total_on_unrecognized JSVal.vnull).2.2.2.2.1 rfl⟩,
   (extractors_total_on_unrecognized JSVal.vnull).2.2.2.2.2⟩

/-- Options carrying a modelName metadata entry, for the override scenario. -/
def c1Opts : LLMTrackerOptions :=
  { defOpts with metadata := some [("modelName", .vstr "override")] }

/-- Response whose model extractor yields m1. -/
def c1Response : JSVal := .vobj [("model", .vstr "m1")]

/-- Counterexample to claim C1: with config.metadata.modelName set to override
and a response whose extractor yields m1, the produced record keeps the
extracted name m1 (the metadata value does not take precedence) and the
metadata mapping still contains the modelName key (it is not filtered). -/
theorem metadata_modelName_ignored_counterexample :
    ((runWrapped c1Opts (.ok c1Response) 5 "ts" fetchOk).requests.map
        FetchRequest.body).map TrackingData.modelName = [.vstr "m1"]
    ∧ ((runWrapped c1Opts (.ok c1Response) 5 "ts" fetchOk).requests.map
        FetchRequest.body).map (fun rec => hasKey rec.metadata "modelName") = [true]
    ∧ ¬ (((runWrapped c1Opts (.ok c1Response) 5 "ts" fetchOk).requests.map
        FetchRequest.body).map TrackingData.modelName = [.vstr "override"]) := by
  refine ⟨rfl, rfl, ?_⟩
  intro h
  have h2 : JSVal.vstr "m1" = JSVal.vstr "override" := by
    have h1 : ([JSVal.vstr "m1"] : List JSVal) = [JSVal.vstr "override"] := h
    exact List.head_eq_of_cons_eq h1
  simp at h2

/-- Claim C1 amended: the record's modelName always equals the model
extractor's output (config.metadata.modelName is never consulted for it), and
the record's metadata is config.metadata spread unfiltered with the durationMs
key assigned last, so a modelName key in config.metadata is preserved. -/
theorem modelName_from_extractor_metadata_unfiltered (opts : LLMTrackerOptions)
    (r : JSVal) (d : Int) (t : String) (env : FetchOutcome) (rec : TrackingData)
    (h : rec ∈ (runWrapped opts (.ok r) d t env).requests.map FetchRequest.body) :
    rec.modelName = ((opts.modelExtractor.getD defaultModelExtractor) r).modelName
    ∧ rec.metadata = spread (opts.metadata.getD []) [("durationMs", .vnum d)] := by
  rw [runWrapped_requests_body, List.mem_singleton] at h
  subst h
  exact ⟨rfl, rfl⟩

/-- The record produced in the override scenario: extracted model name, and
metadata retaining the modelName key with durationMs appended. -/
def c1Rec : TrackingData :=
  { functionName := "f"
    inputTokens := .vnum 0
    outputTokens := .vnum 0
    totalTokens := .vnum 0
    modelName := .vstr "m1"
    timestamp := "ts"
    metadata := [("modelName", .vstr "override"), ("durationMs", .vnum 5)] }

/-- In the override scenario the single delivered record is c1Rec. -/
theorem c1_requests_eq :
    (runWrapped c1Opts (.ok c1Response) 5 "ts" fetchOk).requests.map
      FetchRequest.body = [c1Rec] := rfl

/-- Witness for the amended claim C1 at the override scenario. -/
theorem modelName_from_extractor_metadata_unfiltered_witness :
    c1Rec ∈ (runWrapped c1Opts (.ok c1Response) 5 "ts" fetchOk).requests.map
      FetchRequest.body
    ∧ (c1Rec.modelName = ((c1Opts.modelExtractor.getD defaultModelExtractor)
        c1Response).modelName
      ∧ c1Rec.metadata = spread (c1Opts.metadata.getD []) [("durationMs", .vnum 5)]) := by
  have hmem : c1Rec ∈ (runWrapped c1Opts (.ok c1Response) 5 "ts" fetchOk).requests.map
      FetchRequest.body := by
    rw [c1_requests_eq]
    exact List.mem_singleton_self _
  exact ⟨hmem,
    modelName_from_extractor_metadata_unfiltered c1Opts c1Response 5 "ts" fetchOk c1Rec hmem⟩

/-- Response whose usage carries a negative prompt token count. -/
def c8Response : JSVal :=
  .vobj [("usage", .vobj [("prompt_tokens", .vnum (-5)), ("completion_tokens", .vnum 3)])]

/-- Counterexample to claim C8: the default extractor copies the usage values
unvalidated, so a response with prompt_tokens = -5 yields a record whose
inputTokens is the negative number -5 (and totalTokens is -2). -/
theorem token_fields_can_be_negative_counterexample :
    ((runWrapped defOpts (.ok c8Response) 0 "ts" fetchOk).requests.map
        FetchRequest.body).map TrackingData.inputTokens = [.vnum (-5)]
    ∧ ((runWrapped defOpts (.ok c8Response) 0 "ts" fetchOk).requests.map
        FetchRequest.body).map TrackingData.totalTokens = [.vnum (-2)]
    ∧ ((-5 : Int) < 0 ∧ (-2 : Int) < 0) :=
  ⟨rfl, rfl, by decide⟩

/-- Claim C8 amended: the record's inputTokens and outputTokens are copied
verbatim from the extractor output with no validation, so they are
non-negative only when that output is; in the default extractor's
unrecognized-shape case they are the non-negative zero default. -/
theorem token_fields_passthrough (opts : LLMTrackerOptions) (r : JSVal) (d : Int)
    (t : String) (env : FetchOutcome) (rec : TrackingData)
    (h : rec ∈ (runWrapped opts (.ok r) d t env).requests.map FetchRequest.body) :
    rec.inputTokens = ((opts.tokenExtractor.getD defaultTokenExtractor) r).inputTokens
    ∧ rec.outputTokens = ((opts.tokenExtractor.getD defaultTokenExtractor) r).outputTokens
    ∧ (opts.tokenExtractor = none → defaultTokenRecognized r = false →
        rec.inputTokens = .vnum 0 ∧ rec.outputTokens = .vnum 0) := by
  rw [runWrapped_requests_body, List.mem_singleton] at h
  subst h
  refine ⟨rfl, rfl, ?_⟩
  intro hnone hfalse
  simp [hnone, defaultTokenExtractor, hfalse]

/-- The record produced when the wrapper processes the unrecognized value null
with the default options. -/
def nullRec : TrackingData :=
  { functionName := "f"
    inputTokens := .vnum 0
    outputTokens := .vnum 0
    totalTokens := .vnum 0
    modelName := .vundefined
    timestamp := "ts"
    metadata := [("durationMs", .vnum 0)] }

/-- For the null response the single delivered record is nullRec. -/
theorem null_requests_eq :
    (runWrapped defOpts (.ok .vnull) 0 "ts" fetchOk).requests.map
      FetchRequest.body = [nullRec] := rfl

/-- Witness for the amended claim C8 at the null response. -/
theorem token_fields_passthrough_witness :
    nullRec ∈ (runWrapped defOpts (.ok .vnull) 0 "ts" fetchOk).requests.map
      FetchRequest.body
    ∧ (nullRec.inputTokens = ((defOpts.tokenExtractor.getD defaultTokenExtractor)
        JSVal.vnull).inputTokens
      ∧ nullRec.outputTokens = ((defOpts.tokenExtractor.getD defaultTokenExtractor)
        JSVal.vnull).outputTokens
      ∧ (defOpts.tokenExtractor = none → defaultTokenRecognized JSVal.vnull = false →
          nullRec.inputTokens = .vnum 0 ∧ nullRec.outputTokens = .vnum 0)) := by
  have hmem : nullRec ∈ (runWrapped defOpts (.ok .vnull) 0 "ts" fetchOk).requests.map
      FetchRequest.body := by
    rw [null_requests_eq]
    exact List.mem_singleton_self _
  exact ⟨hmem, token_fields_passthrough defOpts JSVal.vnull 0 "ts" fetchOk nullRec hmem⟩

/-- Lookup at the head key of an object. -/
theorem lookupKey_cons_self (k : String) (v : JSVal) (t : List (String × JSVal)) :
    lookupKey ((k, v) :: t) k = some v := by
  unfold lookupKey
  rw [List.find?_cons_of_pos]
  · rfl
  · simp

/-- Lookup skips a head binding with a different key. -/
theorem lookupKey_cons_ne (k k2 : String) (v : JSVal) (t : List (String × JSVal))
    (h : k ≠ k2) : lookupKey ((k2, v) :: t) k = lookupKey t k := by
  unfold lookupKey
  rw [List.find?_cons_of_neg]
  simp [Ne.symm h]

/-- Looking a key up after a single spread assignment: the assigned key maps to
the assigned value, every other key is unchanged. -/
theorem lookupKey_setKey (o : List (String × JSVal)) (k k2 : String) (v : JSVal) :
    lookupKey (setKey o k2 v) k = if k = k2 then some v else lookupKey o k := by
  induction o with
  | nil =>
    simp only [setKey]
    by_cases h : k = k2
    · subst h; rw [if_pos rfl, lookupKey_cons_self]
    · rw [if_neg h, lookupKey_cons_ne _ _ _ _ h]
  | cons p t ih =>
    obtain ⟨k3, v3⟩ := p
    simp only [setKey]
    by_cases h32 : k3 = k2
    · subst h32
      rw [if_pos rfl]
      by_cases hk : k = k3
      · subst hk
        rw [lookupKey_cons_self, if_pos rfl]
      · rw [lookupKey_cons_ne _ _ _ _ hk, if_neg hk, lookupKey_cons_ne _ _ _ _ hk]
    · rw [if_neg h32]
      by_cases hk : k = k3
      · subst hk
        have hk2 : ¬ k = k2 := h32
        rw [lookupKey_cons_self, if_neg hk2, lookupKey_cons_self]
      · rw [lookupKey_cons_ne _ _ _ _ hk, ih, lookupKey_cons_ne _ _ _ _ hk]

/-- A key not among an object's keys looks up to none. -/
theorem lookupKey_eq_none (o : List (String × JSVal)) (k : String)
    (h : k ∉ o.map Prod.fst) : lookupKey o k = none := by
  induction o with
  | nil => rfl
  | cons p t ih =>
    obtain ⟨k2, v⟩ := p
    simp only [List.map_cons, List.mem_cons, not_or] at h
    rw [lookupKey_cons_ne _ _ _ _ h.1]
    exact ih h.2

/-- Lookup through an object spread: bindings of the second object take
precedence, the first object fills in the rest (the second object has unique
keys, as every JS object literal does). -/
theorem lookupKey_spread (a b : List (String × JSVal)) (k : String)
    (hb : (b.map Prod.fst).Nodup) :
    lookupKey (spread a b) k = (lookupKey b k).orElse fun _ => lookupKey a k := by
  induction b generalizing a with
  | nil => simp [spread, lookupKey, Option.orElse]
  | cons p t ih =>
    obtain ⟨k2, v⟩ := p
    simp only [List.map_cons, List.nodup_cons] at hb
    have hstep : spread a ((k2, v) :: t) = spread (setKey a k2 v) t := rfl
    rw [hstep, ih _ hb.2, lookupKey_setKey]
    by_cases hk : k = k2
    · subst hk
      rw [lookupKey_eq_none t k hb.1, lookupKey_cons_self, if_pos rfl]
      rfl
    · rw [if_neg hk, lookupKey_cons_ne _ _ _ _ hk]

/-- Base metadata layer of the factory scenario. -/
def exBase : BaseOptions :=
  { trackerApiUrl := "https://tracker.example/track"
    apiKey := none
    metadata := some [("a", .vnum 1)]
    tokenExtractor := none
    modelExtractor := none }

/-- Specific metadata layer of the factory scenario. -/
def exSpec : SpecificOptions :=
  { functionName := "g"
    trackerApiUrl := none
    apiKey := none
    metadata := some [("a", .vnum 2), ("b", .vnum 3)]
    tokenExtractor := none
    modelExtractor := none }

/-- Runtime metadata layer of the factory scenario. -/
def exRuntime : List (String × JSVal) := [("b", .vnum 4), ("c", .vnum 5)]

/-- Claim C6: the factory resolves the record metadata as the union of the
base, specific and runtime layers with precedence base < specific < runtime
(every key looks up to the runtime value, else the specific value, else the
base value), and on the concrete layers a=1 / a=2,b=3 / b=4,c=5 the resolved
metadata is a=2, b=4, c=5. -/
theorem factory_metadata_precedence :
    (∀ (base : BaseOptions) (spec : SpecificOptions)
       (rm : List (String × JSVal)) (k : String),
       ((spec.metadata.getD []).map Prod.fst).Nodup →
       (rm.map Prod.fst).Nodup →
       lookupKey ((resolveOptions base spec (some rm)).metadata.getD []) k
         = ((lookupKey rm k).orElse fun _ =>
             (lookupKey (spec.metadata.getD []) k).orElse fun _ =>
               lookupKey (base.metadata.getD []) k))
    ∧ (resolveOptions exBase exSpec (some exRuntime)).metadata
        = some [("a", .vnum 2), ("b", .vnum 4), ("c", .vnum 5)] := by
  constructor
  · intro base spec rm k hspec hrm
    have hmeta : (resolveOptions base spec (some rm)).metadata.getD []
        = spread (spread (base.metadata.getD []) (spec.metadata.getD [])) rm := rfl
    rw [hmeta, lookupKey_spread _ _ _ hrm]
    have hinner : lookupKey (spread (base.metadata.getD []) (spec.metadata.getD [])) k
        = (lookupKey (spec.metadata.getD []) k).orElse fun _ =>
            lookupKey (base.metadata.getD []) k :=
      lookupKey_spread _ _ _ hspec
    rw [hinner]
  · rfl

/-- Witness for C6: the precedence equation instantiated at the concrete
layers and the key b. -/
theorem factory_metadata_precedence_witness :
    ((exSpec.metadata.getD []).map Prod.fst).Nodup
    ∧ (exRuntime.map Prod.fst).Nodup
    ∧ lookupKey ((resolveOptions exBase exSpec (some exRuntime)).metadata.getD []) "b"
        = ((lookupKey exRuntime "b").orElse fun _ =>
            (lookupKey (exSpec.metadata.getD []) "b").orElse fun _ =>
              lookupKey (exBase.metadata.getD []) "b") :=
  ⟨by decide, by decide,
    factory_metadata_precedence.1 exBase exSpec exRuntime "b" (by decide) (by decide)⟩

/-- Claim C10: the factory-produced wrapper passes only the first argument to
the target, so two invocations differing only in the runtime metadata produce
the same caller-visible result and the same deliveries and diagnostics up to
the record metadata field. -/
theorem runtime_metadata_noninterference (base : BaseOptions) (spec : SpecificOptions)
    (target : JSVal → Except JSVal JSVal) (args : JSVal)
    (rm1 rm2 : Option (List (String × JSVal))) (d : Int) (t : String)
    (env : FetchOutcome) :
    (runFactoryWrapped base spec target args rm1 d t env).result
      = (runFactoryWrapped base spec target args rm2 d t env).result
    ∧ (runFactoryWrapped base spec target args rm1 d t env).requests.map reqSansMetadata
      = (runFactoryWrapped base spec target args rm2 d t env).requests.map reqSansMetadata
    ∧ (runFactoryWrapped base spec target args rm1 d t env).diagnostics
      = (runFactoryWrapped base spec target args rm2 d t env).diagnostics := by
  unfold runFactoryWrapped runTracked
  cases target args with
  | error e => exact ⟨rfl, rfl, rfl⟩
  | ok r =>
    cases env with
    | networkError e => exact ⟨rfl, rfl, rfl⟩
    | response ok status statusText body =>
      cases ok with
      | true => exact ⟨rfl, rfl, rfl⟩
      | false => exact ⟨rfl, rfl, rfl⟩
